import Mathlib

/-!
Shallow embedding of the request-construction and provider-dispatch core of
the AI Prompt Debugger (`app.py`): the `PromptDebugger` class (`__init__` and
`analyze_prompt`) together with the input-validation and history-assembly part
of `main`.  External effects (the two provider HTTP APIs and `json.loads`)
are passed in as explicit oracles; `st.error` / `st.warning` reports and the
set of attempted network calls are returned as data, so that claims about
"no network call", "error reported" and "no crash" become statements about
the returned record.
-/

namespace PromptAnalyzer

/-- A chat message, as the dicts `\x7b"role": r, "content": c\x7d` built in `app.py`
(both the conversation-history entries and the API request messages). -/
structure Message where
  role : String
  content : String
deriving DecidableEq

/-- Hexadecimal digit character (lower case), as used by Python JSON escapes. -/
def hexDigitChar (n : Nat) : Char :=
  if n < 10 then Char.ofNat (48 + n) else Char.ofNat (87 + n)

/-- Four-digit lower-case hexadecimal rendering of `n % 65536`. -/
def hex4 (n : Nat) : String :=
  String.mk [hexDigitChar (n / 4096 % 16), hexDigitChar (n / 256 % 16),
             hexDigitChar (n / 16 % 16), hexDigitChar (n % 16)]

/-- Model of CPython `json.dumps` escaping of a single character
(default `ensure_ascii=True`): backslash, quote, the short control escapes,
`\u00xx` for other control characters, `\uxxxx` for non-ASCII, surrogate
pairs above the BMP. -/
def escChar (c : Char) : String :=
  if c = '\\' then "\\\\"
  else if c = '"' then "\\\""
  else if c = '\n' then "\\n"
  else if c = '\t' then "\\t"
  else if c = '\r' then "\\r"
  else if c.toNat = 8 then "\\b"
  else if c.toNat = 12 then "\\f"
  else if c.toNat < 32 then "\\u" ++ hex4 c.toNat
  else if c.toNat < 127 then String.singleton c
  else if c.toNat < 65536 then "\\u" ++ hex4 c.toNat
  else
    "\\u" ++ hex4 (55296 + (c.toNat - 65536) / 1024) ++
    "\\u" ++ hex4 (56320 + (c.toNat - 65536) % 1024)

/-- Model of CPython `json.dumps` on a string: quoted, characters escaped. -/
def pyJsonStr (s : String) : String :=
  "\"" ++ String.join (s.data.map escChar) ++ "\""

/-- One history entry as rendered by `json.dumps(conversation_history, indent=2)`:
a two-key object at nesting depth one. -/
def dumpMessage (m : Message) : String :=
  "  \x7b\n    \"role\": " ++ pyJsonStr m.role ++
  ",\n    \"content\": " ++ pyJsonStr m.content ++ "\n  \x7d"

/-- Model of `json.dumps(conversation_history, indent=2)` as called on line 54
of `app.py`: the empty list prints `[]`, otherwise one object per message,
separated by `",\n"`, inside `[` ... `]`. -/
def jsonDumpsHistory : List Message → String
  | [] => "[]"
  | m :: tl => "[\n" ++ String.intercalate ",\n" ((m :: tl).map dumpMessage) ++ "\n]"

/-- The `inputs` dict assembled in `main` (lines 141-153 of `app.py`) and
consumed by `PromptDebugger.analyze_prompt`. -/
structure Inputs where
  bot_type : String
  system_prompt : String
  conversation_history : List Message
  defective_user_message : String
  defective_agent_response : String
  defective_description : String
  agent_interpretation : String
  expected_behavior : String
  behavioral_guidelines : String
  provider : String
  model : String
deriving DecidableEq

/-- Fixed template text of the `analysis_prompt` f-string up to the first
interpolation (`inputs['bot_type']`). -/
def tplHead : String :=
  "\nYou are an AI expert specializing in debugging and analyzing conversational agent prompts.\n\nGiven the following inputs:\n\n- **Bot Type**: "

/-- Template text between `bot_type` and `system_prompt`. -/
def tplSystemPrompt : String := "\n- **System Prompt**: "

/-- Template text between `system_prompt` and the serialized history. -/
def tplConvHistory : String := "\n- **Conversation History**: "

/-- Template text before `defective_user_message`. -/
def tplDefUserMsg : String := "\n- **Defective User Message**: "

/-- Template text before `defective_agent_response`. -/
def tplDefAgentResp : String := "\n- **Defective Agent Response**: "

/-- Template text before `defective_description`. -/
def tplIssueDesc : String := "\n- **Issue Description**: "

/-- Template text before `agent_interpretation`. -/
def tplAgentInterp : String := "\n- **Agent\x27s Interpretation**: "

/-- Template text before `expected_behavior`. -/
def tplExpected : String := "\n- **Expected Behavior**: "

/-- Template text before `behavioral_guidelines`. -/
def tplGuidelines : String := "\n- **Behavioral Guidelines**: "

/-- The literal required-JSON-shape description at the end of the template
(lines 68-72 of `app.py`; `\x7b\x7b` in the f-string is a literal brace). -/
def jsonShapeDesc : String :=
  "\x7b\n    \"error_analysis\": \x7b \"system_prompt\": \"...\", \"guidelines\": \"...\" \x7d,\n    \"suggestions\": \x7b \"system_prompt\": \"...\", \"guidelines\": \"...\" \x7d,\n    \"interpretation_change\": \"...\"\n\x7d"

/-- Template text after `behavioral_guidelines`: the three numbered tasks and
the lead-in to the required output shape. -/
def tplTasks : String :=
  "\n\n### Tasks:\n1. **Error Source Analysis**: Identify if the issue originates from the system prompt, guidelines, or model behavior.\n2. **Suggestions for Improvements**: Provide modifications to enhance the system prompt and guidelines.\n3. **Agent Interpretation Shift**: Explain how the agent\x27s reasoning may change with the new modifications.\n\nOutput should be in JSON format:\n"

/-- Trailing text of the f-string: the newline and eight spaces of indentation
before the closing `\"\"\"` on line 73. -/
def tplTail : String := "\n        "

/-- The `analysis_prompt` f-string of `PromptDebugger.analyze_prompt`
(lines 47-73 of `app.py`): fixed template text with the nine interpolated
values, the conversation history via `json.dumps(..., indent=2)`. -/
def analysis_prompt (inputs : Inputs) : String :=
  tplHead ++ inputs.bot_type ++
  tplSystemPrompt ++ inputs.system_prompt ++
  tplConvHistory ++ jsonDumpsHistory inputs.conversation_history ++
  tplDefUserMsg ++ inputs.defective_user_message ++
  tplDefAgentResp ++ inputs.defective_agent_response ++
  tplIssueDesc ++ inputs.defective_description ++
  tplAgentInterp ++ inputs.agent_interpretation ++
  tplExpected ++ inputs.expected_behavior ++
  tplGuidelines ++ inputs.behavioral_guidelines ++
  tplTasks ++ jsonShapeDesc ++ tplTail

/-- JSON values, as produced by `json.loads`. -/
inductive Json where
  | null
  | bool (b : Bool)
  | num (n : Int)
  | str (s : String)
  | arr (elems : List Json)
  | obj (fields : List (String × Json))

/-- A content block of an Anthropic Messages API response; `analyze_prompt`
reads `response.content[0].text`. -/
structure ContentBlock where
  text : String
deriving DecidableEq

/-- An Anthropic Messages API response, reduced to the part the code reads. -/
structure AnthropicResponse where
  content : List ContentBlock
deriving DecidableEq

/-- One choice of an OpenAI ChatCompletion response; `analyze_prompt` reads
`response.choices[0].message.content`. -/
structure Choice where
  message : Message
deriving DecidableEq

/-- An OpenAI ChatCompletion response, reduced to the part the code reads. -/
structure OpenAIResponse where
  choices : List Choice
deriving DecidableEq

/-- The keyword arguments of `self.anthropic_client.messages.create`
(lines 77-81 of `app.py`). -/
structure AnthropicRequest where
  model : String
  max_tokens : Nat
  messages : List Message
deriving DecidableEq

/-- The keyword arguments of `openai.ChatCompletion.create`
(lines 84-92 of `app.py`). -/
structure OpenAIRequest where
  model : String
  messages : List Message
  max_tokens : Nat
  temperature : ℚ
deriving DecidableEq

/-- A network call attempted by `analyze_prompt`, to one provider or the other. -/
inductive NetworkCall where
  | toAnthropic (req : AnthropicRequest)
  | toOpenAI (req : OpenAIRequest)
deriving DecidableEq

/-- The external world of `analyze_prompt`: the two provider APIs and
`json.loads`.  Each may return a value or raise (modelled as `Except`, the
`error` carrying the exception text interpolated into `f"Analysis Error: {e}"`). -/
structure Env where
  anthropicAPI : AnthropicRequest → Except String AnthropicResponse
  openaiAPI : OpenAIRequest → Except String OpenAIResponse
  json_loads : String → Except String Json

/-- The `st.secrets` mapping read by `PromptDebugger.__init__`: each key may
be present or absent (absence raises `KeyError`). -/
structure Secrets where
  anthropic_api_key : Option String
  openai_api_key : Option String

/-- State left behind by `PromptDebugger.__init__`: `self.anthropic_client`
exists only if line 28 succeeded, `openai.api_key` is set only if lines 28
and 29 both succeeded, and `init_errors` records the `st.error` report of the
`except KeyError` handler. -/
structure DebuggerState where
  anthropic_client : Option String
  openai_api_key : Option String
  init_errors : List String

/-- The message shown by `PromptDebugger.__init__` when a secret is missing. -/
def missingKeysMsg : String := "Missing API keys in Streamlit secrets."

/-- `PromptDebugger.__init__` (lines 26-31 of `app.py`): line 28 constructs the
Anthropic client from `st.secrets["ANTHROPIC_API_KEY"]`, line 29 assigns
`openai.api_key`; a `KeyError` from either lookup jumps to the handler, so a
missing Anthropic key also leaves `openai.api_key` unset. -/
def promptDebuggerInit (secrets : Secrets) : DebuggerState :=
  match secrets.anthropic_api_key with
  | none => ⟨none, none, [missingKeysMsg]⟩
  | some ak =>
    match secrets.openai_api_key with
    | none => ⟨some ak, none, [missingKeysMsg]⟩
    | some ok => ⟨some ak, some ok, []⟩

/-- `self.model_providers` (lines 33-44 of `app.py`). -/
def model_providers : List (String × List (String × String)) :=
  [("Anthropic",
    [("claude-3-opus-20240229", "Claude 3 Opus"),
     ("claude-3-sonnet-20240229", "Claude 3 Sonnet"),
     ("claude-3-haiku-20240307", "Claude 3 Haiku")]),
   ("OpenAI",
    [("gpt-4o", "GPT-4o"),
     ("gpt-4", "GPT-4"),
     ("gpt-3.5-turbo", "GPT-3.5 Turbo")])]

/-- The model ids selectable for a provider: the keys of that provider's
entry in `model_providers` (empty for an unknown provider). -/
def providerModelKeys (p : String) : List String :=
  match model_providers.lookup p with
  | none => []
  | some ms => ms.map Prod.fst

/-- The request built for the Anthropic branch (lines 77-81): the chosen
model, `max_tokens=4000`, and a single user-role message holding the full
rendered instruction. -/
def anthropicRequest (inputs : Inputs) : AnthropicRequest :=
  ⟨inputs.model, 4000, [⟨"user", analysis_prompt inputs⟩]⟩

/-- The fixed system message of the OpenAI branch (line 87). -/
def openaiSystemMsg : String := "You are an expert AI debugger."

/-- The request built for the OpenAI branch (lines 84-92): the chosen model,
a system message plus the rendered instruction as user content,
`max_tokens=4000`, `temperature=0.2`. -/
def openaiRequest (inputs : Inputs) : OpenAIRequest :=
  ⟨inputs.model, [⟨"system", openaiSystemMsg⟩, ⟨"user", analysis_prompt inputs⟩], 4000, 0.2⟩

/-- What one call of `analyze_prompt` produced: its return value, the network
calls it attempted, and the `st.error` reports it made. -/
structure DispatchOutcome where
  result : Json
  calls : List NetworkCall
  errors : List String

/-- The empty dict `\x7b\x7d` returned by the `except` handler of `analyze_prompt`. -/
def emptyDict : Json := Json.obj []

/-- The `st.error` text of the `except` handler: `f"Analysis Error: {e}"`. -/
def analysisError (e : String) : String := "Analysis Error: " ++ e

/-- Text of the `AttributeError` raised when `self.anthropic_client` was never
assigned (missing Anthropic key) and line 77 dereferences it. -/
def attributeErrorMsg : String :=
  "\x27PromptDebugger\x27 object has no attribute \x27anthropic_client\x27"

/-- Modelled from the library: `openai.ChatCompletion.create` refuses to build
a request when `openai.api_key` is unset, raising an `AuthenticationError`
before any network traffic. -/
def noApiKeyMsg : String := "No API key provided."

/-- Text of the `IndexError` raised by `response.content[0]` /
`response.choices[0]` on an empty list. -/
def indexErrorMsg : String := "list index out of range"

/-- `PromptDebugger.analyze_prompt` (lines 46-98 of `app.py`), with the
`try`/`except Exception` boundary made explicit: any raise inside the `try`
(missing client attribute, missing OpenAI key, API failure, empty response
list, `json.loads` failure) is caught, reported as `f"Analysis Error: {e}"`,
and turned into the empty-dict return; on success the parsed JSON is returned
unchanged.  The branch on line 76 compares `inputs['provider']` with
`"Anthropic"`; every other provider string takes the OpenAI branch. -/
def analyze_prompt (env : Env) (state : DebuggerState) (inputs : Inputs) : DispatchOutcome :=
  if inputs.provider = "Anthropic" then
    match state.anthropic_client with
    | none => ⟨emptyDict, [], [analysisError attributeErrorMsg]⟩
    | some _ =>
      match env.anthropicAPI (anthropicRequest inputs) with
      | .error e => ⟨emptyDict, [.toAnthropic (anthropicRequest inputs)], [analysisError e]⟩
      | .ok resp =>
        match resp.content with
        | [] => ⟨emptyDict, [.toAnthropic (anthropicRequest inputs)], [analysisError indexErrorMsg]⟩
        | blk :: _ =>
          match env.json_loads blk.text with
          | .error e => ⟨emptyDict, [.toAnthropic (anthropicRequest inputs)], [analysisError e]⟩
          | .ok v => ⟨v, [.toAnthropic (anthropicRequest inputs)], []⟩
  else
    match state.openai_api_key with
    | none => ⟨emptyDict, [], [analysisError noApiKeyMsg]⟩
    | some _ =>
      match env.openaiAPI (openaiRequest inputs) with
      | .error e => ⟨emptyDict, [.toOpenAI (openaiRequest inputs)], [analysisError e]⟩
      | .ok resp =>
        match resp.choices with
        | [] => ⟨emptyDict, [.toOpenAI (openaiRequest inputs)], [analysisError indexErrorMsg]⟩
        | ch :: _ =>
          match env.json_loads ch.message.content with
          | .error e => ⟨emptyDict, [.toOpenAI (openaiRequest inputs)], [analysisError e]⟩
          | .ok v => ⟨v, [.toOpenAI (openaiRequest inputs)], []⟩

/-- The form state read by `main` when the Analyze button is pressed:
the two selectboxes, the text areas, and per-exchange user/agent pairs. -/
structure FormState where
  bot_type : String
  provider : String
  model : String
  system_prompt : String
  behavioral_guidelines : String
  exchanges : List (String × String)
  defective_user_message : String
  defective_agent_response : String
  defective_description : String
  agent_interpretation : String
  expected_behavior : String

/-- The conversation-history loop of `main` (lines 119-127 of `app.py`):
for each exchange, append a user entry if `user_msg` is truthy (non-empty),
then an assistant entry if `agent_msg` is truthy. -/
def conversationHistoryOf : List (String × String) → List Message
  | [] => []
  | (u, a) :: tl =>
    ((if u ≠ "" then [Message.mk "user" u] else []) ++
     (if a ≠ "" then [Message.mk "assistant" a] else [])) ++ conversationHistoryOf tl

/-- The guard of line 137 of `app.py`: Python `all([...])` over the seven
required text areas, i.e. truthiness (non-emptiness) of each, in source order. -/
def requiredFieldsFilled (f : FormState) : Bool :=
  !(f.system_prompt == "") && !(f.defective_user_message == "") &&
  !(f.defective_agent_response == "") && !(f.defective_description == "") &&
  !(f.agent_interpretation == "") && !(f.expected_behavior == "") &&
  !(f.behavioral_guidelines == "")

/-- The `st.warning` text of line 138. -/
def fillWarning : String := "⚠️ Please fill in all required fields."

/-- What the Analyze-button handler did: warn without dispatching, or build
`inputs` and call `analyze_prompt`. -/
inductive ClickAction where
  | warn (msg : String)
  | dispatch (inputs : Inputs)
deriving DecidableEq

/-- The `inputs` dict literal of lines 141-153 of `app.py`. -/
def inputsOf (f : FormState) : Inputs :=
  ⟨f.bot_type, f.system_prompt, conversationHistoryOf f.exchanges,
   f.defective_user_message, f.defective_agent_response, f.defective_description,
   f.agent_interpretation, f.expected_behavior, f.behavioral_guidelines,
   f.provider, f.model⟩

/-- The Analyze-button handler (lines 136-155 of `app.py`): if any required
field is empty, warn and stop; otherwise build `inputs` and dispatch. -/
def onAnalyzeClick (f : FormState) : ClickAction :=
  if requiredFieldsFilled f then .dispatch (inputsOf f) else .warn fillWarning

/-- `needle` occurs verbatim inside `hay`. -/
def containsStr (needle hay : String) : Prop := needle.data <:+: hay.data

instance (n h : String) : Decidable (containsStr n h) := by
  unfold containsStr; infer_instance

/-- `n` is a prefix of `h`, on character lists. -/
def listPrefixOf : List Char → List Char → Bool
  | [], _ => true
  | _ :: _, [] => false
  | a :: as, b :: bs => a == b && listPrefixOf as bs

/-- Number of positions of `h` (including the end) at which `n` starts. -/
def countOccAux (n : List Char) : List Char → Nat
  | [] => if listPrefixOf n [] then 1 else 0
  | c :: t => (if listPrefixOf n (c :: t) then 1 else 0) + countOccAux n t

/-- Number of occurrences of `needle` in `hay` (all start positions counted). -/
def countOcc (needle hay : String) : Nat :=
  countOccAux needle.data hay.data

/-- A debugger state as left by `__init__` when both secrets are present. -/
def readyState : DebuggerState :=
  promptDebuggerInit ⟨some "anthropic-key", some "openai-key"⟩

/-- A fully-populated `inputs` dict selecting the Anthropic provider. -/
def sampleInputs : Inputs :=
  ⟨"Text Bot", "sys", [], "u", "r", "d", "i", "e", "g", "Anthropic", "claude-3-haiku-20240307"⟩

/-- A fully-populated `inputs` dict selecting the OpenAI provider. -/
def sampleInputsOAI : Inputs :=
  ⟨"Text Bot", "sys", [], "u", "r", "d", "i", "e", "g", "OpenAI", "gpt-4o"⟩

/-- An `inputs` dict whose `model` is not a key of any provider mapping. -/
def badModelInputs : Inputs :=
  ⟨"Text Bot", "sys", [], "u", "r", "d", "i", "e", "g", "Anthropic", "not-a-model"⟩

/-- A benign environment: both APIs answer with the text `\x7b\x7d` and
`json.loads` parses it to the empty object. -/
def okEnv : Env :=
  ⟨fun _ => .ok ⟨[⟨"\x7b\x7d"⟩]⟩,
   fun _ => .ok ⟨[⟨⟨"assistant", "\x7b\x7d"⟩⟩]⟩,
   fun _ => .ok emptyDict⟩

/-- The message CPython `json.loads` raises on the input `not json`. -/
def expectingValueMsg : String := "Expecting value: line 1 column 1 (char 0)"

/-- An environment whose providers reply with the literal text `not json`,
which `json.loads` rejects. -/
def notJsonEnv : Env :=
  ⟨fun _ => .ok ⟨[⟨"not json"⟩]⟩,
   fun _ => .ok ⟨[⟨⟨"assistant", "not json"⟩⟩]⟩,
   fun _ => .error expectingValueMsg⟩

/-- The end-to-end scenario request of the spec: provider Anthropic, the
Claude 3 Haiku model, every text field `x`, empty conversation history,
bot type `Text Bot`. -/
def scenarioInputs : Inputs :=
  ⟨"Text Bot", "x", [], "x", "x", "x", "x", "x", "x", "Anthropic", "claude-3-haiku-20240307"⟩

/-- The same scenario with the other selectable bot type, `Voice Bot`. -/
def scenarioInputsVoice : Inputs :=
  ⟨"Voice Bot", "x", [], "x", "x", "x", "x", "x", "x", "Anthropic", "claude-3-haiku-20240307"⟩

/-- The mocked provider reply of the end-to-end scenario. -/
def scenarioReply : String :=
  "\x7b\"error_analysis\":\x7b\"system_prompt\":\"a\",\"guidelines\":\"b\"\x7d,\"suggestions\":\x7b\"system_prompt\":\"c\",\"guidelines\":\"d\"\x7d,\"interpretation_change\":\"e\"\x7d"

/-- The JSON structure `json.loads` produces from `scenarioReply`. -/
def scenarioResult : Json :=
  Json.obj
    [("error_analysis", Json.obj [("system_prompt", Json.str "a"), ("guidelines", Json.str "b")]),
     ("suggestions", Json.obj [("system_prompt", Json.str "c"), ("guidelines", Json.str "d")]),
     ("interpretation_change", Json.str "e")]

/-- The environment of the end-to-end scenario: the provider replies with
`scenarioReply`, and `json.loads` parses exactly that text to
`scenarioResult` (anything else would be rejected). -/
def scenarioEnv : Env :=
  ⟨fun _ => .ok ⟨[⟨scenarioReply⟩]⟩,
   fun _ => .ok ⟨[⟨⟨"assistant", scenarioReply⟩⟩]⟩,
   fun s => if s = scenarioReply then .ok scenarioResult else .error expectingValueMsg⟩

/-- A form state whose required `system_prompt` field is empty. -/
def emptyPromptForm : FormState :=
  ⟨"Text Bot", "Anthropic", "claude-3-haiku-20240307", "", "g", [], "u", "r", "d", "i", "e"⟩

/-- A form state with all seven required fields filled and no exchanges
entered (so the conversation history is empty). -/
def filledForm : FormState :=
  ⟨"Text Bot", "Anthropic", "claude-3-haiku-20240307", "sys", "g", [("", "")], "u", "r", "d", "i", "e"⟩

theorem containsStr_self (s : String) : containsStr s s :=
  ⟨[], [], by simp⟩

theorem containsStr_suffix (a b : String) : containsStr b (a ++ b) :=
  ⟨a.data, [], by simp⟩

theorem containsStr_append_left {n a : String} (b : String) (h : containsStr n a) :
    containsStr n (a ++ b) := by
  obtain ⟨s, t, hst⟩ := h
  exact ⟨s, t ++ b.data, by rw [String.data_append, ← hst]; simp⟩

theorem containsStr_count_le {n h : String} (hc : containsStr n h) (c : Char) :
    n.data.count c ≤ h.data.count c :=
  hc.sublist.count_le c

theorem countOccAux_single (c : Char) (l : List Char) : countOccAux [c] l = l.count c := by
  induction l with
  | nil => rfl
  | cons b t ih =>
    simp only [countOccAux, listPrefixOf, Bool.and_true, ih, List.count_cons]
    by_cases hcb : c = b
    · subst hcb
      exact Nat.add_comm _ _
    · have h1 : (c == b) = false := beq_eq_false_iff_ne.mpr hcb
      have h2 : (b == c) = false := beq_eq_false_iff_ne.mpr (Ne.symm hcb)
      simp [h1, h2]

theorem countOcc_x (hay : String) : countOcc "x" hay = hay.data.count 'x' := by
  unfold countOcc
  rw [show ("x" : String).data = ['x'] from rfl, countOccAux_single]

theorem analyze_prompt_anthropic_calls (env : Env) (state : DebuggerState) (inputs : Inputs)
    (k : String) (hp : inputs.provider = "Anthropic") (hc : state.anthropic_client = some k) :
    (analyze_prompt env state inputs).calls = [NetworkCall.toAnthropic (anthropicRequest inputs)] := by
  cases henv : env.anthropicAPI (anthropicRequest inputs) with
  | error e => simp [analyze_prompt, hp, hc, henv]
  | ok resp =>
    obtain ⟨content⟩ := resp
    cases content with
    | nil => simp [analyze_prompt, hp, hc, henv]
    | cons blk rest =>
      cases hload : env.json_loads blk.text with
      | error e => simp [analyze_prompt, hp, hc, henv, hload]
      | ok v => simp [analyze_prompt, hp, hc, henv, hload]

theorem analyze_prompt_openai_calls (env : Env) (state : DebuggerState) (inputs : Inputs)
    (k : String) (hp : inputs.provider ≠ "Anthropic") (hc : state.openai_api_key = some k) :
    (analyze_prompt env state inputs).calls = [NetworkCall.toOpenAI (openaiRequest inputs)] := by
  cases henv : env.openaiAPI (openaiRequest inputs) with
  | error e => simp [analyze_prompt, hp, hc, henv]
  | ok resp =>
    obtain ⟨choices⟩ := resp
    cases choices with
    | nil => simp [analyze_prompt, hp, hc, henv]
    | cons ch rest =>
      cases hload : env.json_loads ch.message.content with
      | error e => simp [analyze_prompt, hp, hc, henv, hload]
      | ok v => simp [analyze_prompt, hp, hc, henv, hload]

theorem analyze_prompt_no_client (env : Env) (state : DebuggerState) (inputs : Inputs)
    (hp : inputs.provider = "Anthropic") (hc : state.anthropic_client = none) :
    analyze_prompt env state inputs = ⟨emptyDict, [], [analysisError attributeErrorMsg]⟩ := by
  simp [analyze_prompt, hp, hc]

theorem analyze_prompt_no_key (env : Env) (state : DebuggerState) (inputs : Inputs)
    (hp : inputs.provider ≠ "Anthropic") (hc : state.openai_api_key = none) :
    analyze_prompt env state inputs = ⟨emptyDict, [], [analysisError noApiKeyMsg]⟩ := by
  simp [analyze_prompt, hp, hc]

theorem analyze_prompt_anthropic_parse_error (env : Env) (state : DebuggerState) (inputs : Inputs)
    (k : String) (blk : ContentBlock) (rest : List ContentBlock) (e : String)
    (hp : inputs.provider = "Anthropic") (hc : state.anthropic_client = some k)
    (happi : env.anthropicAPI (anthropicRequest inputs) = .ok ⟨blk :: rest⟩)
    (hload : env.json_loads blk.text = .error e) :
    analyze_prompt env state inputs =
      ⟨emptyDict, [NetworkCall.toAnthropic (anthropicRequest inputs)], [analysisError e]⟩ := by
  simp [analyze_prompt, hp, hc, happi, hload]

theorem analyze_prompt_openai_parse_error (env : Env) (state : DebuggerState) (inputs : Inputs)
    (k : String) (ch : Choice) (rest : List Choice) (e : String)
    (hp : inputs.provider ≠ "Anthropic") (hc : state.openai_api_key = some k)
    (happi : env.openaiAPI (openaiRequest inputs) = .ok ⟨ch :: rest⟩)
    (hload : env.json_loads ch.message.content = .error e) :
    analyze_prompt env state inputs =
      ⟨emptyDict, [NetworkCall.toOpenAI (openaiRequest inputs)], [analysisError e]⟩ := by
  simp [analyze_prompt, hp, hc, happi, hload]

/-- C1 (counterexample): a request whose `model` is not a key of the selected
provider's model mapping is nevertheless dispatched: `analyze_prompt` never
consults `model_providers`, the network call to Anthropic is attempted
carrying the unmapped model string, and no validation error is reported. -/
theorem c1_counterexample :
    badModelInputs.model ∉ providerModelKeys badModelInputs.provider ∧
    (analyze_prompt okEnv readyState badModelInputs).calls =
      [NetworkCall.toAnthropic (anthropicRequest badModelInputs)] ∧
    (analyze_prompt okEnv readyState badModelInputs).errors = [] :=
  ⟨by decide, rfl, rfl⟩

/-- C1 (amended): `analyze_prompt` performs no model validation.  Even when
`inputs.model` is not a key of the selected provider's model mapping, as long
as the provider's client/key is configured, the network call to the selected
provider is attempted, carrying the model string verbatim; no validation
error precedes it. -/
theorem c1_no_model_validation (env : Env) (state : DebuggerState) (inputs : Inputs) (k : String)
    (hm : inputs.model ∉ providerModelKeys inputs.provider) :
    (inputs.provider = "Anthropic" → state.anthropic_client = some k →
      (analyze_prompt env state inputs).calls =
        [NetworkCall.toAnthropic (anthropicRequest inputs)]) ∧
    (inputs.provider = "OpenAI" → state.openai_api_key = some k →
      (analyze_prompt env state inputs).calls =
        [NetworkCall.toOpenAI (openaiRequest inputs)]) :=
  ⟨fun hp hc => analyze_prompt_anthropic_calls env state inputs k hp hc,
   fun hp hc => analyze_prompt_openai_calls env state inputs k (by rw [hp]; decide) hc⟩

/-- C1 witness: concrete instantiation of `c1_no_model_validation` at a
request with the unmapped model `not-a-model`. -/
theorem c1_no_model_validation_witness :
    (analyze_prompt okEnv readyState badModelInputs).calls =
      [NetworkCall.toAnthropic (anthropicRequest badModelInputs)] :=
  (c1_no_model_validation okEnv readyState badModelInputs "anthropic-key" (by decide)).1 rfl rfl

/-- C2: if the credential for the selected provider is absent from
`st.secrets`, `__init__` reports the configuration error, and `analyze_prompt`
makes no network call, returns the empty result, and reports an error instead
of crashing.  (A missing Anthropic key leaves `self.anthropic_client`
unassigned, so the Anthropic branch fails on attribute access before any
call; a missing OpenAI key leaves `openai.api_key` unset, and the OpenAI
client library refuses to send without a key.) -/
theorem c2_missing_credential (env : Env) (secrets : Secrets) (inputs : Inputs)
    (h : (inputs.provider = "Anthropic" ∧ secrets.anthropic_api_key = none) ∨
         (inputs.provider = "OpenAI" ∧ secrets.openai_api_key = none)) :
    (analyze_prompt env (promptDebuggerInit secrets) inputs).calls = [] ∧
    (analyze_prompt env (promptDebuggerInit secrets) inputs).result = emptyDict ∧
    (analyze_prompt env (promptDebuggerInit secrets) inputs).errors ≠ [] ∧
    missingKeysMsg ∈ (promptDebuggerInit secrets).init_errors := by
  rcases h with ⟨hp, hk⟩ | ⟨hp, hk⟩
  · have hstate : promptDebuggerInit secrets = ⟨none, none, [missingKeysMsg]⟩ := by
      unfold promptDebuggerInit
      rw [hk]
    rw [hstate, analyze_prompt_no_client env _ inputs hp rfl]
    exact ⟨rfl, rfl, by simp, by simp⟩
  · have hp' : inputs.provider ≠ "Anthropic" := by rw [hp]; decide
    cases hsec : secrets.anthropic_api_key with
    | none =>
      have hstate : promptDebuggerInit secrets = ⟨none, none, [missingKeysMsg]⟩ := by
        unfold promptDebuggerInit
        rw [hsec]
      rw [hstate, analyze_prompt_no_key env _ inputs hp' rfl]
      exact ⟨rfl, rfl, by simp, by simp⟩
    | some ak =>
      have hstate : promptDebuggerInit secrets = ⟨some ak, none, [missingKeysMsg]⟩ := by
        unfold promptDebuggerInit
        rw [hsec, hk]
      rw [hstate, analyze_prompt_no_key env _ inputs hp' rfl]
      exact ⟨rfl, rfl, by simp, by simp⟩

/-- C2 witness: concrete instantiation of `c2_missing_credential` with the
Anthropic key absent and the Anthropic provider selected. -/
theorem c2_missing_credential_witness :
    (analyze_prompt okEnv (promptDebuggerInit ⟨none, some "openai-key"⟩) sampleInputs).calls = [] ∧
    (analyze_prompt okEnv (promptDebuggerInit ⟨none, some "openai-key"⟩) sampleInputs).result =
      emptyDict ∧
    (analyze_prompt okEnv (promptDebuggerInit ⟨none, some "openai-key"⟩) sampleInputs).errors ≠ [] ∧
    missingKeysMsg ∈ (promptDebuggerInit ⟨none, some "openai-key"⟩).init_errors :=
  c2_missing_credential okEnv ⟨none, some "openai-key"⟩ sampleInputs (Or.inl ⟨rfl, rfl⟩)

/-- C3: dispatch with provider `Anthropic` only ever calls the Anthropic
path (either no call, when the client is missing, or exactly the Anthropic
request), and dispatch with provider `OpenAI` only ever calls the OpenAI
path; no input is routed to the other provider's call. -/
theorem c3_routing (env : Env) (state : DebuggerState) (inputs : Inputs) :
    (inputs.provider = "Anthropic" →
      (analyze_prompt env state inputs).calls = [] ∨
      (analyze_prompt env state inputs).calls =
        [NetworkCall.toAnthropic (anthropicRequest inputs)]) ∧
    (inputs.provider = "OpenAI" →
      (analyze_prompt env state inputs).calls = [] ∨
      (analyze_prompt env state inputs).calls =
        [NetworkCall.toOpenAI (openaiRequest inputs)]) := by
  constructor
  · intro hp
    cases hc : state.anthropic_client with
    | none =>
      left
      rw [analyze_prompt_no_client env state inputs hp hc]
    | some k =>
      right
      exact analyze_prompt_anthropic_calls env state inputs k hp hc
  · intro hp
    have hp' : inputs.provider ≠ "Anthropic" := by rw [hp]; decide
    cases hc : state.openai_api_key with
    | none =>
      left
      rw [analyze_prompt_no_key env state inputs hp' hc]
    | some k =>
      right
      exact analyze_prompt_openai_calls env state inputs k hp' hc

/-- C3 witness: concrete instantiation of `c3_routing` on an
Anthropic-provider request. -/
theorem c3_routing_witness :
    (analyze_prompt okEnv readyState sampleInputs).calls = [] ∨
    (analyze_prompt okEnv readyState sampleInputs).calls =
      [NetworkCall.toAnthropic (anthropicRequest sampleInputs)] :=
  (c3_routing okEnv readyState sampleInputs).1 rfl

/-- C8: a dispatched Anthropic call carries exactly one user-role message
holding the full rendered instruction, with `max_tokens=4000`; a dispatched
OpenAI call carries exactly the fixed system message
`You are an expert AI debugger.` followed by the rendered instruction as user
content, with `max_tokens=4000` and `temperature=0.2`. -/
theorem c8_request_shape (env : Env) (state : DebuggerState) (inputs : Inputs)
    (antKey oaiKey : String) :
    (inputs.provider = "Anthropic" → state.anthropic_client = some antKey →
      (analyze_prompt env state inputs).calls =
        [NetworkCall.toAnthropic ⟨inputs.model, 4000, [⟨"user", analysis_prompt inputs⟩]⟩]) ∧
    (inputs.provider = "OpenAI" → state.openai_api_key = some oaiKey →
      (analyze_prompt env state inputs).calls =
        [NetworkCall.toOpenAI ⟨inputs.model,
          [⟨"system", "You are an expert AI debugger."⟩, ⟨"user", analysis_prompt inputs⟩],
          4000, 0.2⟩]) :=
  ⟨fun hp hc => analyze_prompt_anthropic_calls env state inputs antKey hp hc,
   fun hp hc => analyze_prompt_openai_calls env state inputs oaiKey (by rw [hp]; decide) hc⟩

/-- C8 witness: concrete instantiation of `c8_request_shape` on both
provider branches. -/
theorem c8_request_shape_witness :
    (analyze_prompt okEnv readyState sampleInputs).calls =
      [NetworkCall.toAnthropic
        ⟨sampleInputs.model, 4000, [⟨"user", analysis_prompt sampleInputs⟩]⟩] ∧
    (analyze_prompt okEnv readyState sampleInputsOAI).calls =
      [NetworkCall.toOpenAI ⟨sampleInputsOAI.model,
        [⟨"system", "You are an expert AI debugger."⟩, ⟨"user", analysis_prompt sampleInputsOAI⟩],
        4000, 0.2⟩] :=
  ⟨(c8_request_shape okEnv readyState sampleInputs "anthropic-key" "openai-key").1 rfl rfl,
   (c8_request_shape okEnv readyState sampleInputsOAI "anthropic-key" "openai-key").2 rfl rfl⟩

/-- C5: when the dispatched provider's reply text is rejected by
`json.loads`, `analyze_prompt` returns the empty result and reports
`Analysis Error: ` followed by the underlying cause message; the failure is
absorbed at the dispatch boundary (the function returns normally). -/
theorem c5_parse_error (env : Env) (state : DebuggerState) (inputs : Inputs) (t e : String)
    (hload : env.json_loads t = .error e)
    (h : (inputs.provider = "Anthropic" ∧ (∃ k, state.anthropic_client = some k) ∧
          ∃ rest, env.anthropicAPI (anthropicRequest inputs) = .ok ⟨⟨t⟩ :: rest⟩) ∨
         (inputs.provider ≠ "Anthropic" ∧ (∃ k, state.openai_api_key = some k) ∧
          ∃ r rest, env.openaiAPI (openaiRequest inputs) = .ok ⟨⟨⟨r, t⟩⟩ :: rest⟩)) :
    (analyze_prompt env state inputs).result = emptyDict ∧
    analysisError e ∈ (analyze_prompt env state inputs).errors := by
  rcases h with ⟨hp, ⟨k, hc⟩, rest, happi⟩ | ⟨hp, ⟨k, hc⟩, r, rest, happi⟩
  · rw [analyze_prompt_anthropic_parse_error env state inputs k ⟨t⟩ rest e hp hc happi hload]
    exact ⟨rfl, by simp⟩
  · rw [analyze_prompt_openai_parse_error env state inputs k ⟨⟨r, t⟩⟩ rest e hp hc happi hload]
    exact ⟨rfl, by simp⟩

/-- C5 witness: concrete instantiation of `c5_parse_error` with the provider
replying `not json`. -/
theorem c5_parse_error_witness :
    (analyze_prompt notJsonEnv readyState sampleInputs).result = emptyDict ∧
    analysisError expectingValueMsg ∈ (analyze_prompt notJsonEnv readyState sampleInputs).errors :=
  c5_parse_error notJsonEnv readyState sampleInputs "not json" expectingValueMsg rfl
    (Or.inl ⟨rfl, ⟨"anthropic-key", rfl⟩, [], rfl⟩)

/-- C6: if any of the seven required text fields is empty, pressing Analyze
surfaces the fill-all-fields warning and `analyze_prompt` is not called; if
all seven are non-empty, dispatch proceeds (the conversation history, empty
or not, never blocks it). -/
theorem c6_required_fields (f : FormState) :
    ((f.system_prompt = "" ∨ f.defective_user_message = "" ∨ f.defective_agent_response = "" ∨
      f.defective_description = "" ∨ f.agent_interpretation = "" ∨ f.expected_behavior = "" ∨
      f.behavioral_guidelines = "") → onAnalyzeClick f = ClickAction.warn fillWarning) ∧
    ((f.system_prompt ≠ "" ∧ f.defective_user_message ≠ "" ∧ f.defective_agent_response ≠ "" ∧
      f.defective_description ≠ "" ∧ f.agent_interpretation ≠ "" ∧ f.expected_behavior ≠ "" ∧
      f.behavioral_guidelines ≠ "") → onAnalyzeClick f = ClickAction.dispatch (inputsOf f)) := by
  constructor
  · intro h
    have hf : requiredFieldsFilled f = false := by
      unfold requiredFieldsFilled
      rcases h with h | h | h | h | h | h | h <;> simp [h]
    unfold onAnalyzeClick
    rw [hf]
    rfl
  · intro h
    obtain ⟨h1, h2, h3, h4, h5, h6, h7⟩ := h
    have hf : requiredFieldsFilled f = true := by
      unfold requiredFieldsFilled
      simp [beq_eq_false_iff_ne.mpr h1, beq_eq_false_iff_ne.mpr h2, beq_eq_false_iff_ne.mpr h3,
        beq_eq_false_iff_ne.mpr h4, beq_eq_false_iff_ne.mpr h5, beq_eq_false_iff_ne.mpr h6,
        beq_eq_false_iff_ne.mpr h7]
    unfold onAnalyzeClick
    rw [hf]
    rfl

/-- C6 witness: with `system_prompt` empty the handler warns and does not
dispatch; with all seven required fields filled (and no conversation
history) it dispatches. -/
theorem c6_required_fields_witness :
    onAnalyzeClick emptyPromptForm = ClickAction.warn fillWarning ∧
    onAnalyzeClick filledForm = ClickAction.dispatch (inputsOf filledForm) :=
  ⟨(c6_required_fields emptyPromptForm).1 (Or.inl rfl),
   (c6_required_fields filledForm).2
     ⟨by decide, by decide, by decide, by decide, by decide, by decide, by decide⟩⟩

/-- C9: the instruction builder is deterministic — equal inputs yield the
identical rendered instruction string (the embedded `analysis_prompt` is a
pure function of the `inputs` record). -/
theorem c9_deterministic (i j : Inputs) (h : i = j) :
    analysis_prompt i = analysis_prompt j := by
  rw [h]

/-- C9 witness: concrete instantiation of `c9_deterministic`. -/
theorem c9_deterministic_witness :
    analysis_prompt sampleInputs = analysis_prompt sampleInputs :=
  c9_deterministic sampleInputs sampleInputs rfl

/-- C10: the conversation history assembled by `main` never contains a
message with empty content — entries are appended only for non-empty texts —
and exchanges whose two texts are both empty contribute nothing, so an
all-empty set of exchanges (of any count, in particular the minimum count of
one) yields the empty history. -/
theorem c10_history (exchanges : List (String × String)) :
    (∀ m ∈ conversationHistoryOf exchanges, m.content ≠ "") ∧
    ((∀ p ∈ exchanges, p.1 = "" ∧ p.2 = "") → conversationHistoryOf exchanges = []) := by
  induction exchanges with
  | nil => exact ⟨by simp [conversationHistoryOf], fun _ => rfl⟩
  | cons hd tl ih =>
    obtain ⟨u, a⟩ := hd
    constructor
    · intro m hm
      unfold conversationHistoryOf at hm
      rcases List.mem_append.mp hm with h1 | h2
      · rcases List.mem_append.mp h1 with hu | ha
        · by_cases h : u = ""
          · simp [h] at hu
          · simp [h] at hu
            rw [hu]
            exact h
        · by_cases h : a = ""
          · simp [h] at ha
          · simp [h] at ha
            rw [ha]
            exact h
      · exact ih.1 m h2
    · intro hall
      obtain ⟨hu, ha⟩ := hall (u, a) (List.mem_cons_self _ _)
      have htl : conversationHistoryOf tl = [] :=
        ih.2 fun p hp => hall p (List.mem_cons_of_mem _ hp)
      unfold conversationHistoryOf
      simp [htl]
      exact ⟨hu, ha⟩

/-- C10 witness: one all-empty exchange yields the empty history, and a
history entry produced from a non-empty user text has non-empty content. -/
theorem c10_history_witness :
    conversationHistoryOf [("", "")] = [] ∧
    (Message.mk "user" "hi").content ≠ "" :=
  ⟨(c10_history [("", "")]).2 (by decide),
   (c10_history [("hi", "")]).1 (Message.mk "user" "hi") (by decide)⟩

set_option maxRecDepth 12000

set_option maxHeartbeats 4000000

/-- C4 (counterexample): the `model` field of a valid request (its model is a
key of the selected provider's mapping) is not rendered into the instruction:
the rendered template for the scenario request does not contain the string
`claude-3-haiku-20240307` (its character `0` does not occur in the rendered
instruction at all), so not every field of the request record appears in the
instruction. -/
theorem c4_counterexample :
    scenarioInputs.model ∈ providerModelKeys scenarioInputs.provider ∧
    ¬ containsStr scenarioInputs.model (analysis_prompt scenarioInputs) := by
  refine ⟨by decide, fun h => ?_⟩
  have hle := containsStr_count_le h '0'
  have h1 : 0 < (scenarioInputs.model).data.count '0' := by decide
  have h2 : (analysis_prompt scenarioInputs).data.count '0' = 0 := by decide
  rw [h2] at hle
  omega

/-- C4 (amended): every field that the template renders — `bot_type`,
`system_prompt`, the JSON-serialized conversation history,
`defective_user_message`, `defective_agent_response`, the issue description,
`agent_interpretation`, `expected_behavior` and `behavioral_guidelines` —
appears verbatim (exact string content, unescaped and untruncated) as a
substring of the rendered instruction; the `provider` and `model` routing
fields are not part of the instruction text. -/
theorem c4_fields_embedded (i : Inputs) :
    containsStr i.bot_type (analysis_prompt i) ∧
    containsStr i.system_prompt (analysis_prompt i) ∧
    containsStr (jsonDumpsHistory i.conversation_history) (analysis_prompt i) ∧
    containsStr i.defective_user_message (analysis_prompt i) ∧
    containsStr i.defective_agent_response (analysis_prompt i) ∧
    containsStr i.defective_description (analysis_prompt i) ∧
    containsStr i.agent_interpretation (analysis_prompt i) ∧
    containsStr i.expected_behavior (analysis_prompt i) ∧
    containsStr i.behavioral_guidelines (analysis_prompt i) := by
  refine ⟨?_, ?_, ?_, ?_, ?_, ?_, ?_, ?_, ?_⟩ <;>
    simp only [analysis_prompt] <;>
    repeat (first
      | ( with_reducible exact containsStr_suffix _ _)
      | ( with_reducible apply containsStr_append_left))

/-- C7 (counterexample): in the end-to-end scenario (provider Anthropic,
model Claude 3 Haiku, all text fields `x`, empty history) the rendered
instruction does not contain `x` exactly nine times: with bot type
`Text Bot` it occurs eleven times and with `Voice Bot` ten times (the fixed
template itself contributes three occurrences, in `expert`, `Expected` and
`Explain`, and `Text` a fourth). -/
theorem c7_counterexample :
    countOcc "x" (analysis_prompt scenarioInputs) ≠ 9 ∧
    countOcc "x" (analysis_prompt scenarioInputsVoice) ≠ 9 := by
  constructor <;> rw [countOcc_x] <;> decide

/-- C7 (amended): in the end-to-end scenario the rendered instruction
contains `x` exactly eleven times (ten with bot type `Voice Bot`) and
contains the literal required-JSON-shape description; and with the provider
replying the scenario JSON document, dispatch returns exactly the parsed
structure unchanged, with no error reported. -/
theorem c7_scenario :
    countOcc "x" (analysis_prompt scenarioInputs) = 11 ∧
    countOcc "x" (analysis_prompt scenarioInputsVoice) = 10 ∧
    containsStr jsonShapeDesc (analysis_prompt scenarioInputs) ∧
    (analyze_prompt scenarioEnv readyState scenarioInputs).result = scenarioResult ∧
    (analyze_prompt scenarioEnv readyState scenarioInputs).errors = [] := by
  refine ⟨?_, ?_, ?_, ?_, ?_⟩
  · rw [countOcc_x]
    decide
  · rw [countOcc_x]
    decide
  · simp only [analysis_prompt]
    repeat (first
      | ( with_reducible exact containsStr_suffix _ _)
      | ( with_reducible apply containsStr_append_left))
  · rfl
  · rfl

end PromptAnalyzer
